import Mathlib

/-!
Shallow embedding of the authentication/session subsystem of
`next-14-auth` (Next.js 14 + drizzle): the session lifecycle manager
(`SessionManager.ts`), the auth manager (`AuthManager.ts`), and the
route-gating middleware (`Auth` class / `middleware.ts`).

Conventions of the embedding:
- Timestamps are milliseconds since the epoch, modeled as `Nat`
  (JavaScript `Date.now()` / `Date` values).
- The relational store (drizzle over postgres) is modeled as in-memory
  lists inside `DB`; point queries are list filters mirroring the
  `where`/`orderBy`/`limit` combinators used at each call site.
- External collaborators with no logic of their own (HMAC digesting,
  JWT signing, bcrypt comparison, random draws, uuid generation, the
  email provider) are injected through `Env` as opaque functions and
  values, exactly as the source reads them from libraries/`process.env`.
- JavaScript dynamic values that may be either a string or an un-awaited
  `Promise<string>` are modeled by `JSVal`, so that the (un)awaitedness
  of `generateToken()` at its call sites is visible in the model.
-/

/-- A JavaScript value that is either an actual string or a pending
(un-awaited) `Promise<string>` whose eventual value is `compute ()`. -/
inductive JSVal where
  | str (s : String)
  | promiseStr (compute : Unit → String)

/-- `true` exactly when the value is an actual (resolved) string. -/
def JSVal.isResolvedStr : JSVal → Bool
  | .str _ => true
  | .promiseStr _ => false

/-- Row of the `user` table (`schema.ts`): `emailVerified` is a nullable
timestamp (`none` = unverified). -/
structure User where
  id : String
  name : String
  email : String
  emailVerified : Option Nat
  password : String
  createdAt : Nat
deriving Repr, DecidableEq

/-- Row of the `verification` table (`schema.ts`): one code per user
(`userId` is the primary key in the schema; the list model does not
force uniqueness, queries are modeled as written). -/
structure Verification where
  userId : String
  code : Nat
  expiresAt : Nat
deriving Repr, DecidableEq

/-- Row of the `session` table (`schema.ts`). The token columns hold
whatever value the insert site supplies — in the source that value is an
un-awaited promise, hence `JSVal`. -/
structure SessionRow where
  id : String
  userId : String
  accessToken : JSVal
  refreshToken : JSVal
  expiresAt : Nat
  createdAt : Nat
  lastActive : Nat

/-- The payload handed to `signToken` in `createSession`. -/
structure SessionPayload where
  id : String
  userId : String
  accessToken : JSVal
  refreshToken : JSVal
  expiresAt : Nat

/-- The relational store. -/
structure DB where
  users : List User
  verifications : List Verification
  sessions : List SessionRow

/-- A cookie as set through `cookies().set(name, value, options)`;
options absent at a call site are recorded as `none`/`false`. -/
structure CookieRecord where
  value : String
  expires : Option Nat
  maxAge : Option Nat
  httpOnly : Bool
  secure : Bool
  sameSite : Option String
  path : String
deriving Repr, DecidableEq

/-- Mutable world visible to the managers: the database, the response
cookie jar, and an observation log of every payload handed to the token
signer (so that statements about the signed cookie payload can be made). -/
structure World where
  db : DB
  cookieJar : List (String × CookieRecord)
  signedPayloads : List SessionPayload

/-- Opaque collaborators, random draws and configuration, injected as
the source reads them from libraries and `process.env`. -/
structure Env where
  appKey : String
  hmacSha256Hex : String → String → String
  randBytes1 : List Nat
  randBytes2 : List Nat
  sessionId : String
  newUserId : String
  signTok : SessionPayload → String
  comparePassword : String → String → Bool
  hashPassword : String → String
  randFloat : ℚ
  sendEmailError : Option String
  isProduction : Bool

/-- Discriminated outcome of a public auth operation, mirroring the
object shapes returned by the source (`{status, message}` variants,
`{status: "unverified", userId}`, and the `redirect(...)` calls). -/
inductive OpResult where
  | err (message : String)
  | ok (message : String)
  | okSession (message : String) (session : String)
  | okRegistered (message : String) (userId : String)
  | unverified (userId : String)
  | redirectTo (location : String)
deriving Repr, DecidableEq

/-- `status === "error"` test used on `createSession`'s result. -/
def OpResult.isError : OpResult → Bool
  | .err _ => true
  | _ => false

/-- `cookies().get(name)` over the jar. -/
def getCookie (jar : List (String × CookieRecord)) (name : String) : Option CookieRecord :=
  (jar.find? (fun p => p.1 == name)).map (fun p => p.2)

/-- `cookies().set(name, rec)` over the jar: the new record shadows any
earlier one with the same name. -/
def setCookie (jar : List (String × CookieRecord)) (name : String) (rec : CookieRecord) :
    List (String × CookieRecord) :=
  (name, rec) :: jar.filter (fun p => p.1 != name)

/-- `db.select().from(users).where(eq(users.id, userId))`. -/
def selectUsersById (db : DB) (userId : String) : List User :=
  db.users.filter (fun u => u.id == userId)

/-- `db.select().from(users).where(eq(users.email, email))`. -/
def selectUsersByEmail (db : DB) (email : String) : List User :=
  db.users.filter (fun u => u.email == email)

/-- Combining step for `orderBy(desc(expiresAt)).limit(1)`: keep the row
with the later expiry (first row wins ties, which SQL leaves
unspecified). -/
def pickLater (acc : Option Verification) (v : Verification) : Option Verification :=
  match acc with
  | none => some v
  | some w => if v.expiresAt > w.expiresAt then some v else some w

/-- Last step of `orderBy(desc(expiresAt)).limit(1)`: the row with the
largest `expiresAt`. -/
def maxByExpiry (vs : List Verification) : Option Verification :=
  vs.foldl pickLater none

/-- `db.select().from(verifications).where(eq(verifications.userId, userId))
.orderBy(desc(verifications.expiresAt)).limit(1)`. -/
def latestVerification (vs : List Verification) (userId : String) : Option Verification :=
  maxByExpiry (vs.filter (fun v => v.userId == userId))

/-- Hex digit for a nibble. -/
def hexDigit (n : Nat) : Char :=
  if n < 10 then Char.ofNat (48 + n) else Char.ofNat (87 + n)

/-- One byte as two hex digits. -/
def byteToHex (b : Nat) : String :=
  String.mk [hexDigit (b / 16 % 16), hexDigit (b % 16)]

/-- `Buffer.toString("hex")` over a byte list. -/
def bytesToHex (bs : List Nat) : String :=
  String.join (bs.map byteToHex)

/-- `generateToken()` from `SessionManager.ts`: hex-encodes 16 random
bytes, then returns the hex HMAC-SHA256 digest of that hex string keyed
by `APP_KEY`. The function is `async`; a call site that does not `await`
it therefore receives the pending promise, which is exactly what this
definition returns. -/
def generateToken (env : Env) (randomBytes : List Nat) : JSVal :=
  JSVal.promiseStr (fun _ => env.hmacSha256Hex env.appKey (bytesToHex randomBytes))

/-- `DEFAULT_LOGIN_REDIRECT_URL` from `middleware.ts`. -/
def defaultLoginRedirect : String := "/dashboard"

/-- `DEFAULT_LOGOUT_REDIRECT_URL` from `middleware.ts`. -/
def defaultLogoutRedirect : String := "/auth/login"

/-- `createSession(userId)` from `SessionManager.ts`. Note the two
`generateToken()` calls are not awaited in the source, so the session
row, the signed payload and hence the cookie all receive pending
promises (`JSVal.promiseStr`), not digest strings. `expiresAt` is
`createdAt` plus 10 seconds (`setSeconds(getSeconds() + 10)` rolls over
into minutes, so it is exactly +10000 ms). -/
def createSession (env : Env) (w : World) (now : Nat) (userId : String) : OpResult × World :=
  match (selectUsersById w.db userId).head? with
  | none => (.err ("User not found"), w)
  | some _ =>
    let accessToken := generateToken env env.randBytes1
    let refreshToken := generateToken env env.randBytes2
    let createdAt := now
    let expiresAt := now + 10 * 1000
    let row : SessionRow :=
      { id := env.sessionId, userId := userId, accessToken := accessToken,
        refreshToken := refreshToken, expiresAt := expiresAt,
        createdAt := createdAt, lastActive := createdAt }
    let payload : SessionPayload :=
      { id := env.sessionId, userId := userId, accessToken := accessToken,
        refreshToken := refreshToken, expiresAt := expiresAt }
    let sessionCookie := env.signTok payload
    let jar := setCookie w.cookieJar ("session")
      { value := sessionCookie, expires := some expiresAt, maxAge := none,
        httpOnly := true, secure := env.isProduction, sameSite := some ("strict"),
        path := ("/") }
    (.okSession ("Successfully created session") sessionCookie,
      { db := { w.db with sessions := w.db.sessions ++ [row] },
        cookieJar := jar,
        signedPayloads := w.signedPayloads ++ [payload] })

/-- `logoutUser()` from `AuthManager.ts`: if a session cookie is present
it is overwritten with an empty, immediately-expiring value; in both
cases the user is redirected to the logout destination. No database
access occurs. -/
def logoutUser (w : World) : OpResult × World :=
  match getCookie w.cookieJar ("session") with
  | none => (.redirectTo defaultLogoutRedirect, w)
  | some _ =>
    let jar := setCookie w.cookieJar ("session")
      { value := "", expires := none, maxAge := some 0,
        httpOnly := false, secure := false, sameSite := none, path := ("/") }
    (.redirectTo defaultLogoutRedirect, { w with cookieJar := jar })

/-!
Route-gating middleware (`Auth` class in `src/unnamed/part_000`, identical
in structure to the `Authbase` class shipped next to `SessionManager.ts`).
-/

/-- The components of `request.nextUrl` (a WHATWG `URL`): its string
form — what `"" + request.nextUrl` produces — is the full serialized
URL, origin included. -/
structure NextURL where
  scheme : String
  host : String
  pathname : String
  search : String
deriving Repr, DecidableEq

/-- `url.href` / `url.toString()`: full serialization. -/
def NextURL.serialize (u : NextURL) : String :=
  u.scheme ++ ("//") ++ u.host ++ u.pathname ++ u.search

/-- The parts of the incoming request the middleware reads:
`request.nextUrl` and the `Cookie` header (`none` when absent). -/
structure NextRequest where
  nextUrl : NextURL
  cookieHeader : Option String
deriving Repr, DecidableEq

/-- `AuthConfig` from the middleware module. -/
structure AuthConfig where
  publicRoutes : List String
  privateRoutes : List String
  redirectToLoginURL : String
deriving Repr, DecidableEq

/-- Does `cs` start with `pre`? -/
def charsStartWith : List Char → List Char → Bool
  | _, [] => true
  | [], _ :: _ => false
  | c :: cs, d :: ds => c == d && charsStartWith cs ds

/-- JavaScript `s.startsWith(pre)`, over the character lists. -/
def strStartsWith (s pre : String) : Bool :=
  charsStartWith s.toList pre.toList

/-- `isPublicRoute` / `isPrivateRoute`: a path matches a configured list
when it equals an entry or starts with it. -/
def isRouteMatch (routes : List String) (url : String) : Bool :=
  routes.any (fun route => url == route || strStartsWith url route)

/-- `isAuthenticated(request)` from the `Auth` class. The two session
API responses (GET `/api/auth/session`, PUT `.../refresh`) are injected
as the status strings `s1` and `s2`; with no `Cookie` header the method
returns `false` without any fetch. -/
def isAuthenticated (s1 s2 : String) (req : NextRequest) : Bool :=
  match req.cookieHeader with
  | none => false
  | some _ =>
    let status := if s1 == ("expired") then s2 else s1
    status == ("success")

/-- `new URL(input, base)` as used by the middleware: an absolute input
is kept; a path-absolute input is resolved against the base origin (the
only shapes the middleware produces; other inputs are resolved against
the origin root, an approximation that leaves the query string — the
part the theorems inspect — untouched). -/
def resolveURL (input : String) (base : NextURL) : String :=
  if strStartsWith input ("http://") || strStartsWith input ("https://") then input
  else if strStartsWith input ("/") then base.scheme ++ ("//") ++ base.host ++ input
  else base.scheme ++ ("//") ++ base.host ++ ("/") ++ input

/-- Result of the middleware: pass the request through or redirect. -/
inductive GateDecision where
  | next
  | redirect (location : String)
deriving Repr, DecidableEq

/-- `Auth.middleware(request)`. Returns the decision paired with a flag
recording whether the session/cookie check (`cookies().get` +
`isAuthenticated`) was performed on this path. The redirect target is
`new URL(redirectToLoginURL + "?redirect_uri=" + request.nextUrl,
request.url)` — note the source concatenates the whole `request.nextUrl`,
whose string form is the full URL, not only the pathname. -/
def Auth.middleware (cfg : AuthConfig) (s1 s2 : String) (req : NextRequest) :
    GateDecision × Bool :=
  let pathName := req.nextUrl.pathname
  let publicRoute := isRouteMatch cfg.publicRoutes pathName
  let privateRoute := isRouteMatch cfg.privateRoutes pathName
  if publicRoute && !privateRoute then (.next, false)
  else if privateRoute then
    let authenticated := isAuthenticated s1 s2 req
    if !authenticated then
      (.redirect (resolveURL
          (cfg.redirectToLoginURL ++ ("?redirect_uri=") ++ req.nextUrl.serialize)
          req.nextUrl),
        true)
    else (.next, true)
  else (.next, false)

/-- Characters of a string after its first question mark (the query
component of a serialized URL). -/
def charsAfterQuery : List Char → List Char
  | [] => []
  | c :: rest => if c == '?' then rest else charsAfterQuery rest

/-- Split a character list on ampersands (query-parameter separation). -/
def splitAmp : List Char → List (List Char)
  | [] => [[]]
  | c :: rest =>
    if c == '&' then [] :: splitAmp rest
    else
      match splitAmp rest with
      | [] => [[c]]
      | g :: gs => (c :: g) :: gs

/-- The value of the `redirect_uri` query parameter of a serialized URL,
if present. -/
def redirectUriParam (loc : String) : Option String :=
  ((splitAmp (charsAfterQuery loc.toList)).findSome?
    (fun kv =>
      let key := ("redirect_uri=").toList
      if charsStartWith kv key then some (String.mk (kv.drop key.length)) else none))

/-!
AuthManager operations (`AuthManager.ts`).
-/

/-- `/[A-Z]/.test(password)`: some ASCII uppercase letter occurs. -/
def hasUppercaseChar (s : String) : Bool :=
  s.toList.any (fun c => 65 ≤ c.toNat && c.toNat ≤ 90)

/-- `/[0-9]/.test(password)`: some ASCII digit occurs. -/
def hasDigitChar (s : String) : Bool :=
  s.toList.any (fun c => 48 ≤ c.toNat && c.toNat ≤ 57)

/-- The three password-policy checks that open both `registerUser` and
`authenticateUser`, in source order; `some msg` is the error message of
the first failing check, `none` means the policy is satisfied. -/
def validatePasswordPolicy (password : String) : Option String :=
  if password.length < 8 then
    some ("Password must be at least 8 characters long")
  else if !hasUppercaseChar password then
    some ("Password must have at least one uppercase character")
  else if !hasDigitChar password then
    some ("Password must have at least one number")
  else none

/-- `authenticateUser(email, password)`: the three policy checks run
first (no database access); only then is the user looked up by email,
the bcrypt comparison made, the verified flag consulted, and a session
created. -/
def authenticateUser (env : Env) (w : World) (now : Nat) (email password : String) :
    OpResult × World :=
  if password.length < 8 then
    (.err ("Password must be at least 8 characters long"), w)
  else if !hasUppercaseChar password then
    (.err ("Password must have at least one uppercase character"), w)
  else if !hasDigitChar password then
    (.err ("Password must have at least one number"), w)
  else
    match (selectUsersByEmail w.db email).head? with
    | none => (.err ("Email was not found"), w)
    | some user =>
      if !env.comparePassword password user.password then
        (.err ("Incorrect password"), w)
      else if user.emailVerified.isNone then
        (.unverified user.id, w)
      else
        let res := createSession env w now user.id
        if res.1.isError then (.err ("Unable to create session"), res.2)
        else (.ok ("Logged in successfully"), res.2)

/-- Accumulating decimal parse of a digit-character list; `none` on a
non-digit character. -/
def parseDigitsAux : List Char → Nat → Option Nat
  | [], acc => some acc
  | c :: cs, acc =>
    if 48 ≤ c.toNat && c.toNat ≤ 57 then
      parseDigitsAux cs (acc * 10 + (c.toNat - 48))
    else none

/-- `parseInt(authCode.join(""))` compared against the stored code:
`some n` when the joined decimal string parses, `none` when `parseInt`
yields `NaN` (the empty join), which can never equal the stored code.
On the strings `join` produces here — concatenations of decimal numeral
strings — this agrees with JavaScript `parseInt`. -/
def decodeJoined (authCode : List Nat) : Option Nat :=
  let joined := (String.join (authCode.map toString)).toList
  if joined.isEmpty then none else parseDigitsAux joined 0

/-- `Math.floor(10000 + Math.random() * 90000)` for a draw `r` of
`Math.random()`: always a 5-digit code when `0 ≤ r < 1`. -/
def freshCode (r : ℚ) : Nat :=
  (Int.floor ((10000 : ℚ) + r * 90000)).toNat

/-- `verifyUserEmail(userId, authCode)`: user lookup, already-verified
check, latest-code lookup, strict expiry check, exact code comparison;
on success `emailVerified` is set to the current time, a session is
created and the user is redirected to the login landing page. -/
def verifyUserEmail (env : Env) (w : World) (now : Nat) (userId : String)
    (authCode : List Nat) : OpResult × World :=
  match (selectUsersById w.db userId).head? with
  | none => (.err ("User not found"), w)
  | some user =>
    if user.emailVerified.isSome then
      (.err ("Email already verified"), w)
    else
      match latestVerification w.db.verifications userId with
      | none => (.err ("Verification code not found"), w)
      | some verification =>
        if verification.expiresAt < now then
          (.err ("Verification code has expired"), w)
        else if decodeJoined authCode != some verification.code then
          (.err ("Incorrect verification code"), w)
        else
          let db' := { w.db with
            users := w.db.users.map (fun u =>
              if u.id == userId then { u with emailVerified := some now } else u) }
          let res := createSession env { w with db := db' } now user.id
          if res.1.isError then (.err ("Unable to create session"), res.2)
          else (.redirectTo defaultLoginRedirect, res.2)

/-- Throttle message of `resendUserEmailVerification`. -/
def throttleMessage : String :=
  "Please wait a bit longer! You've already received a verification code less than 5 minutes ago."

/-- `resendUserEmailVerification(userId)`: after the user/verified
checks, the resend is throttled exactly when the stored code's expiry is
strictly later than `now` plus 5 minutes; otherwise a fresh code is
drawn and the stored row is overwritten with it and a fresh 1-hour
expiry, and the email is dispatched. -/
def resendUserEmailVerification (env : Env) (w : World) (now : Nat) (userId : String) :
    OpResult × World :=
  match (selectUsersById w.db userId).head? with
  | none => (.err ("User not found"), w)
  | some user =>
    if user.emailVerified.isSome then
      (.err ("Email already verified"), w)
    else
      let throttled :=
        match latestVerification w.db.verifications userId with
        | some verification => decide (verification.expiresAt > now + 5 * 60 * 1000)
        | none => false
      if throttled then (.err throttleMessage, w)
      else
        let code := freshCode env.randFloat
        let db' := { w.db with
          verifications := w.db.verifications.map (fun v =>
            if v.userId == userId then
              { v with code := code, expiresAt := now + 60 * 60 * 1000 }
            else v) }
        let w' := { w with db := db' }
        match env.sendEmailError with
        | some _ => (.err ("Unable to send verification email"), w')
        | none => (.ok ("Verification email sent"), w')

/-!
Exception-level semantics for storage faults. Each database call
consults a fault list; a `true` entry makes that call throw a storage
error. `resendUserEmailVerification` is the one public operation in
`AuthManager.ts` whose database calls are not wrapped in `try`/`catch`,
so a thrown storage error escapes its boundary (`Except.error`), while
its siblings catch and return a discriminated `{status: "error"}`.
-/

/-- Consume the next fault-list entry (an absent entry means the call
succeeds). -/
def takeFault (faults : List Bool) : Bool × List Bool :=
  match faults with
  | [] => (false, [])
  | b :: rest => (b, rest)

/-- `resendUserEmailVerification` under the fault model. The body is the
source body verbatim: no `try`/`catch` surrounds the three database
calls (user select, verification select, verification update), so a
fault at any of them propagates out as `Except.error`; only the email
dispatch at the end sits inside a `try`/`catch` (absorbed into
`env.sendEmailError`). -/
def resendUserEmailVerificationExc (env : Env) (w : World) (now : Nat) (userId : String)
    (faults : List Bool) : Except String (OpResult × World) :=
  let (f1, faults) := takeFault faults
  if f1 then .error ("StorageError") else
  match (selectUsersById w.db userId).head? with
  | none => .ok (.err ("User not found"), w)
  | some user =>
    if user.emailVerified.isSome then
      .ok (.err ("Email already verified"), w)
    else
      let (f2, faults) := takeFault faults
      if f2 then .error ("StorageError") else
      let throttled :=
        match latestVerification w.db.verifications userId with
        | some verification => decide (verification.expiresAt > now + 5 * 60 * 1000)
        | none => false
      if throttled then .ok (.err throttleMessage, w)
      else
        let code := freshCode env.randFloat
        let (f3, _faults) := takeFault faults
        if f3 then .error ("StorageError") else
        let db' := { w.db with
          verifications := w.db.verifications.map (fun v =>
            if v.userId == userId then
              { v with code := code, expiresAt := now + 60 * 60 * 1000 }
            else v) }
        let w' := { w with db := db' }
        match env.sendEmailError with
        | some _ => .ok (.err ("Unable to send verification email"), w')
        | none => .ok (.ok ("Verification email sent"), w')

/-!
Concrete fixtures used by witnesses and counterexamples.
-/

/-- A registered, unverified user. -/
def user1 : User :=
  { id := "u1", name := "A", email := "a@x.com", emailVerified := none,
    password := "hashedAbcdef12", createdAt := 0 }

/-- The outstanding verification code of `user1` (expires at t = 600000). -/
def verification1 : Verification :=
  { userId := "u1", code := 12345, expiresAt := 600000 }

/-- World holding `user1` with an outstanding verification code, no
sessions, no cookies. -/
def world1 : World :=
  { db := { users := [user1], verifications := [verification1], sessions := [] },
    cookieJar := [], signedPayloads := [] }

/-- Concrete collaborators for the fixtures. -/
def env1 : Env :=
  { appKey := "app-key", hmacSha256Hex := fun key msg => key ++ ("#") ++ msg,
    randBytes1 := List.replicate 16 171, randBytes2 := List.replicate 16 205,
    sessionId := "s1", newUserId := "u2",
    signTok := fun p => ("signed:") ++ p.id,
    comparePassword := fun password hash => hash == ("hashed") ++ password,
    hashPassword := fun password => ("hashed") ++ password,
    randFloat := 0, sendEmailError := none, isProduction := false }

/-- The application's middleware configuration (`middleware.ts`): every
path matches the public entry `/`, so private paths exercise the
precedence branch. -/
def appConfig : AuthConfig :=
  { publicRoutes := ["/", "/auth/"], privateRoutes := ["/dashboard"],
    redirectToLoginURL := "/auth/login" }

/-- A request for `/dashboard` carrying no cookie. -/
def dashboardRequest : NextRequest :=
  { nextUrl := { scheme := "http:", host := "localhost:3000",
                 pathname := "/dashboard", search := "" },
    cookieHeader := none }

/-- A request for `/dashboard` carrying a session cookie header. -/
def dashboardRequestWithCookie : NextRequest :=
  { nextUrl := { scheme := "http:", host := "localhost:3000",
                 pathname := "/dashboard", search := "" },
    cookieHeader := some ("session=abc") }

/-- A configuration whose public list does not blanket-match every path
(unlike `appConfig`, whose `/` entry matches everything). -/
def strictConfig : AuthConfig :=
  { publicRoutes := ["/auth/"], privateRoutes := ["/dashboard"],
    redirectToLoginURL := "/auth/login" }

/-- A request for `/pricing`, matching neither list of `strictConfig`. -/
def pricingRequest : NextRequest :=
  { nextUrl := { scheme := "http:", host := "localhost:3000",
                 pathname := "/pricing", search := "" },
    cookieHeader := some ("session=abc") }

/-!
Helper lemmas about the query model.
-/

/-- The head of a list, when present, is a member. -/
theorem mem_of_head?_eq {α : Type} (l : List α) (a : α) (h : l.head? = some a) : a ∈ l := by
  cases l with
  | nil => simp at h
  | cons x xs =>
    simp only [List.head?_cons, Option.some.injEq] at h
    subst h
    exact List.mem_cons_self x xs

/-- `pickLater` never forgets: the combined value is always present. -/
theorem pickLater_isSome (acc : Option Verification) (v : Verification) :
    (pickLater acc v).isSome := by
  cases acc with
  | none => rfl
  | some w => by_cases h : v.expiresAt > w.expiresAt <;> simp [pickLater, h]

/-- Folding `pickLater` from a present accumulator stays present. -/
theorem foldl_pickLater_isSome (vs : List Verification) (acc : Option Verification)
    (hacc : acc.isSome) : (vs.foldl pickLater acc).isSome := by
  induction vs generalizing acc with
  | nil => exact hacc
  | cons x xs ih => exact ih (pickLater acc x) (pickLater_isSome acc x)

/-- A nonempty list has a latest element. -/
theorem maxByExpiry_isSome (vs : List Verification) (hne : vs ≠ []) :
    (maxByExpiry vs).isSome := by
  cases vs with
  | nil => exact absurd rfl hne
  | cons x xs =>
    exact foldl_pickLater_isSome xs (pickLater none x) (pickLater_isSome none x)

/-- Folding `pickLater` yields a member of the list or the accumulator. -/
theorem foldl_pickLater_mem (vs : List Verification) (acc : Option Verification)
    (v : Verification) (h : vs.foldl pickLater acc = some v) : v ∈ vs ∨ acc = some v := by
  induction vs generalizing acc with
  | nil => exact Or.inr h
  | cons x xs ih =>
    rcases ih (pickLater acc x) h with hmem | hacc
    · exact Or.inl (List.mem_cons_of_mem x hmem)
    · cases hx : acc with
      | none =>
        rw [hx] at hacc
        simp only [pickLater, Option.some.injEq] at hacc
        subst hacc
        exact Or.inl (List.mem_cons_self x xs)
      | some w =>
        rw [hx] at hacc
        simp only [pickLater] at hacc
        by_cases hgt : x.expiresAt > w.expiresAt
        · rw [if_pos hgt] at hacc
          simp only [Option.some.injEq] at hacc
          subst hacc
          exact Or.inl (List.mem_cons_self x xs)
        · rw [if_neg hgt] at hacc
          exact Or.inr (hx ▸ hacc)

/-- The latest element is a member. -/
theorem maxByExpiry_mem (vs : List Verification) (v : Verification)
    (h : maxByExpiry vs = some v) : v ∈ vs := by
  rcases foldl_pickLater_mem vs none v h with hmem | hacc
  · exact hmem
  · exact absurd hacc (by simp)

/-- An element of a filtered list satisfies the filter. -/
theorem head?_filter_prop {α : Type} (p : α → Bool) (l : List α) (a : α)
    (h : (l.filter p).head? = some a) : p a = true :=
  (List.mem_filter.mp (mem_of_head?_eq (l.filter p) a h)).2

/-- Updating the matching verification rows commutes with selecting
them: selecting after the update returns the selection of the original
rows, each overwritten with the new code and expiry. -/
theorem filter_update_verifications (vs : List Verification) (userId : String) (c e : Nat) :
    ((vs.map (fun v =>
        if v.userId == userId then { v with code := c, expiresAt := e } else v)).filter
      (fun v => v.userId == userId)) =
    ((vs.filter (fun v => v.userId == userId)).map
      (fun v => { v with code := c, expiresAt := e })) := by
  induction vs with
  | nil => rfl
  | cons x xs ih =>
    by_cases hx : x.userId == userId
    · simp only [List.map_cons, List.filter_cons]
      rw [if_pos hx]
      simp only [hx, if_pos]
      simp only [ih]
      rfl
    · simp only [List.map_cons, List.filter_cons]
      rw [if_neg hx]
      simp only [hx]
      simp only [Bool.false_eq_true, if_false, ih]

/-- Marking the matching users verified commutes with selecting them. -/
theorem filter_update_users (us : List User) (userId : String) (now : Nat) :
    ((us.map (fun u =>
        if u.id == userId then { u with emailVerified := some now } else u)).filter
      (fun u => u.id == userId)) =
    ((us.filter (fun u => u.id == userId)).map
      (fun u => { u with emailVerified := some now })) := by
  induction us with
  | nil => rfl
  | cons x xs ih =>
    by_cases hx : x.id == userId
    · simp only [List.map_cons, List.filter_cons]
      rw [if_pos hx]
      simp only [hx, if_pos]
      simp only [ih]
      rfl
    · simp only [List.map_cons, List.filter_cons]
      rw [if_neg hx]
      simp only [hx]
      simp only [Bool.false_eq_true, if_false, ih]

/-- `Math.floor(10000 + r * 90000)` is a 5-digit number for any draw
`0 ≤ r < 1` of `Math.random()`. -/
theorem freshCode_bounds (r : ℚ) (h0 : 0 ≤ r) (h1 : r < 1) :
    10000 ≤ freshCode r ∧ freshCode r ≤ 99999 := by
  unfold freshCode
  have hlo : ((10000 : ℤ) : ℚ) ≤ (10000 : ℚ) + r * 90000 := by
    have hr : (0 : ℚ) ≤ r * 90000 := by positivity
    push_cast
    linarith
  have hhi : (10000 : ℚ) + r * 90000 < ((100000 : ℤ) : ℚ) := by
    have hr : r * 90000 < 90000 := by nlinarith
    push_cast
    linarith
  have hfl : (10000 : ℤ) ≤ Int.floor ((10000 : ℚ) + r * 90000) := Int.le_floor.mpr hlo
  have hfu : Int.floor ((10000 : ℚ) + r * 90000) < 100000 := Int.floor_lt.mpr hhi
  omega

/-!
Claim theorems.
-/

/-- C8: `logoutUser` leaves the database — in particular every stored
session row — entirely unchanged, leaves the signer log unchanged,
redirects to the logout destination, and its only other effect is
overwriting the client-side `session` cookie with an empty,
immediately-expiring value (when one was present). -/
theorem logoutUser_frame (w : World) :
    (logoutUser w).2.db = w.db ∧
    (logoutUser w).2.signedPayloads = w.signedPayloads ∧
    (logoutUser w).1 = .redirectTo defaultLogoutRedirect ∧
    ((logoutUser w).2.cookieJar = w.cookieJar ∨
      (logoutUser w).2.cookieJar = setCookie w.cookieJar ("session")
        { value := "", expires := none, maxAge := some 0,
          httpOnly := false, secure := false, sameSite := none, path := ("/") }) := by
  unfold logoutUser
  cases h : getCookie w.cookieJar ("session") <;> simp

/-- C8 witness: the frame property at a concrete world that holds a
session cookie. -/
theorem logoutUser_frame_witness :
    (logoutUser (createSession env1 world1 1000 ("u1")).2).2.db
        = (createSession env1 world1 1000 ("u1")).2.db ∧
    (logoutUser (createSession env1 world1 1000 ("u1")).2).1
        = .redirectTo defaultLogoutRedirect :=
  ⟨(logoutUser_frame (createSession env1 world1 1000 ("u1")).2).1,
   (logoutUser_frame (createSession env1 world1 1000 ("u1")).2).2.2.1⟩

/-- C2 (evidence of the unresolved-token bug): at a concrete
`createSession` call for an existing user, the access and refresh
tokens written into the inserted session row and into the payload
handed to the cookie signer are the un-awaited pending promises
returned by `generateToken()` — not resolved digest strings. -/
theorem createSession_stores_pending_tokens :
    ∃ row payload,
      (createSession env1 world1 1000 ("u1")).2.db.sessions = [row] ∧
      (createSession env1 world1 1000 ("u1")).2.signedPayloads = [payload] ∧
      row.accessToken = generateToken env1 env1.randBytes1 ∧
      row.refreshToken = generateToken env1 env1.randBytes2 ∧
      payload.accessToken = generateToken env1 env1.randBytes1 ∧
      payload.refreshToken = generateToken env1 env1.randBytes2 ∧
      row.accessToken.isResolvedStr = false ∧
      row.refreshToken.isResolvedStr = false ∧
      payload.accessToken.isResolvedStr = false ∧
      payload.refreshToken.isResolvedStr = false :=
  ⟨_, _, rfl, rfl, rfl, rfl, rfl, rfl, rfl, rfl, rfl, rfl⟩

/-- C7 (evidence of the unguarded boundary): with a storage fault at its
first database call, `resendUserEmailVerification` — the one public
operation whose database calls are not wrapped in `try`/`catch` — lets
the storage error escape its boundary instead of returning a
discriminated outcome. -/
theorem resend_storage_error_escapes :
    resendUserEmailVerificationExc env1 world1 0 ("u1") [true]
      = .error ("StorageError") := rfl

/-- C5: for every `createSession` call on an existing user, the inserted
session row expires exactly 10 seconds (10000 ms) after its creation
timestamp, and the `session` cookie's expiry is that same timestamp. -/
theorem createSession_expiry_ten_seconds (env : Env) (w : World) (now : Nat)
    (userId : String) (u : User)
    (hu : (selectUsersById w.db userId).head? = some u) :
    ∃ row cookie,
      (createSession env w now userId).2.db.sessions = w.db.sessions ++ [row] ∧
      row.createdAt = now ∧
      row.expiresAt = row.createdAt + 10 * 1000 ∧
      getCookie (createSession env w now userId).2.cookieJar ("session") = some cookie ∧
      cookie.expires = some row.expiresAt := by
  unfold createSession
  rw [hu]
  exact ⟨_, _, rfl, rfl, rfl, rfl, rfl⟩

/-- C5 witness: the 10-second expiry at a concrete call. -/
theorem createSession_expiry_ten_seconds_witness :
    (selectUsersById world1.db ("u1")).head? = some user1 ∧
    (∃ row cookie,
      (createSession env1 world1 1000 ("u1")).2.db.sessions = world1.db.sessions ++ [row] ∧
      row.createdAt = 1000 ∧
      row.expiresAt = row.createdAt + 10 * 1000 ∧
      getCookie (createSession env1 world1 1000 ("u1")).2.cookieJar ("session") = some cookie ∧
      cookie.expires = some row.expiresAt) :=
  ⟨by decide, createSession_expiry_ten_seconds env1 world1 1000 ("u1") user1 (by decide)⟩

/-- C1: when a path matches both a public and a private prefix, the gate
performs the session check and passes the request through exactly when
the session check succeeds — the unauthenticated public-only allow
branch is never taken. -/
theorem middleware_private_overrides_public (cfg : AuthConfig) (s1 s2 : String)
    (req : NextRequest)
    (hpub : isRouteMatch cfg.publicRoutes req.nextUrl.pathname = true)
    (hpriv : isRouteMatch cfg.privateRoutes req.nextUrl.pathname = true) :
    (Auth.middleware cfg s1 s2 req).2 = true ∧
    ((Auth.middleware cfg s1 s2 req).1 = GateDecision.next ↔
      isAuthenticated s1 s2 req = true) := by
  cases hauth : isAuthenticated s1 s2 req <;>
    simp [Auth.middleware, hpub, hpriv, hauth]

/-- C1 witness: `/dashboard` matches both lists of the application
configuration (`/` matches every path), and with no cookie the gate
checks the session and redirects rather than allowing. -/
theorem middleware_private_overrides_public_witness :
    isRouteMatch appConfig.publicRoutes dashboardRequest.nextUrl.pathname = true ∧
    isRouteMatch appConfig.privateRoutes dashboardRequest.nextUrl.pathname = true ∧
    ((Auth.middleware appConfig ("x") ("x") dashboardRequest).2 = true ∧
      ((Auth.middleware appConfig ("x") ("x") dashboardRequest).1 = GateDecision.next ↔
        isAuthenticated ("x") ("x") dashboardRequest = true)) :=
  ⟨by decide, by decide,
    middleware_private_overrides_public appConfig ("x") ("x") dashboardRequest
      (by decide) (by decide)⟩

/-- C9: a path matching neither configured list is passed through with
no session or cookie check at all — unclassified paths are
default-allow. -/
theorem middleware_unclassified_allows (cfg : AuthConfig) (s1 s2 : String)
    (req : NextRequest)
    (hpub : isRouteMatch cfg.publicRoutes req.nextUrl.pathname = false)
    (hpriv : isRouteMatch cfg.privateRoutes req.nextUrl.pathname = false) :
    Auth.middleware cfg s1 s2 req = (GateDecision.next, false) := by
  simp [Auth.middleware, hpub, hpriv]

/-- C9 witness: `/pricing` matches neither list of `strictConfig` and is
allowed without any authentication check, even though the session API
would answer "expired"/"expired". -/
theorem middleware_unclassified_allows_witness :
    isRouteMatch strictConfig.publicRoutes pricingRequest.nextUrl.pathname = false ∧
    isRouteMatch strictConfig.privateRoutes pricingRequest.nextUrl.pathname = false ∧
    Auth.middleware strictConfig ("expired") ("expired") pricingRequest
      = (GateDecision.next, false) :=
  ⟨by decide, by decide,
    middleware_unclassified_allows strictConfig ("expired") ("expired") pricingRequest
      (by decide) (by decide)⟩

/-- C6 counterexample: at the concrete unauthenticated request for
`/dashboard`, the gate redirects to the login URL with `redirect_uri`
set to the full serialized request URL
(`http://localhost:3000/dashboard`), which differs from the requested
path (`/dashboard`) — so the claim that `redirect_uri` is set to the
original requested path fails. -/
theorem middleware_redirect_uri_counterexample :
    (Auth.middleware appConfig ("x") ("x") dashboardRequest).1 =
      .redirect ("http://localhost:3000/auth/login?redirect_uri=http://localhost:3000/dashboard") ∧
    redirectUriParam
        ("http://localhost:3000/auth/login?redirect_uri=http://localhost:3000/dashboard") =
      some ("http://localhost:3000/dashboard") ∧
    dashboardRequest.nextUrl.pathname = ("/dashboard") ∧
    (("http://localhost:3000/dashboard" : String) == ("/dashboard")) = false :=
  ⟨by decide, by decide, rfl, by decide⟩

/-- C6 amended: for every private-path request whose session validation
(including the transparent refresh attempt) fails, the gate redirects to
the configured login URL with `redirect_uri` set to the full string form
of `request.nextUrl` (scheme, host, path and query) — not merely the
requested path. -/
theorem middleware_redirects_with_full_url (cfg : AuthConfig) (s1 s2 : String)
    (req : NextRequest)
    (hpriv : isRouteMatch cfg.privateRoutes req.nextUrl.pathname = true)
    (hauth : isAuthenticated s1 s2 req = false) :
    (Auth.middleware cfg s1 s2 req).1 =
      .redirect (resolveURL
        (cfg.redirectToLoginURL ++ ("?redirect_uri=") ++ req.nextUrl.serialize)
        req.nextUrl) := by
  simp [Auth.middleware, hpriv, hauth]

/-- C6 amended witness: the full-URL redirect at the concrete
unauthenticated `/dashboard` request. -/
theorem middleware_redirects_with_full_url_witness :
    isRouteMatch appConfig.privateRoutes dashboardRequest.nextUrl.pathname = true ∧
    isAuthenticated ("x") ("x") dashboardRequest = false ∧
    (Auth.middleware appConfig ("x") ("x") dashboardRequest).1 =
      .redirect (resolveURL
        (appConfig.redirectToLoginURL ++ ("?redirect_uri=")
          ++ dashboardRequest.nextUrl.serialize)
        dashboardRequest.nextUrl) :=
  ⟨by decide, by decide,
    middleware_redirects_with_full_url appConfig ("x") ("x") dashboardRequest
      (by decide) (by decide)⟩

/-- C10: whenever the password policy fails, `authenticateUser` returns
that policy-specific validation error with the world untouched — before
and independent of any storage lookup — so a stored account whose
correct password violates the policy can never authenticate, and the
response is the policy message, not the incorrect-password or
unknown-email error. -/
theorem authenticateUser_policy_before_lookup (env : Env) (w : World) (now : Nat)
    (email password msg : String)
    (h : validatePasswordPolicy password = some msg) :
    authenticateUser env w now email password = (.err msg, w) ∧
    (msg == ("Incorrect password")) = false ∧
    (msg == ("Email was not found")) = false := by
  unfold validatePasswordPolicy at h
  by_cases h1 : password.length < 8
  · rw [if_pos h1] at h
    simp only [Option.some.injEq] at h
    subst h
    exact ⟨by simp [authenticateUser, h1], rfl, rfl⟩
  · rw [if_neg h1] at h
    by_cases h2 : hasUppercaseChar password = true
    · by_cases h3 : hasDigitChar password = true
      · rw [if_neg (by simp [h2]), if_neg (by simp [h3])] at h
        exact absurd h (by simp)
      · rw [if_neg (by simp [h2]), if_pos (by simp [h3])] at h
        simp only [Option.some.injEq] at h
        subst h
        exact ⟨by simp [authenticateUser, h1, h2, h3], rfl, rfl⟩
    · rw [if_pos (by simp [h2])] at h
      simp only [Option.some.injEq] at h
      subst h
      exact ⟨by simp [authenticateUser, h1, h2], rfl, rfl⟩

/-- C10 witness: the all-lowercase password of `user1` (stored hash and
all) fails the policy at login, yielding the policy message even though
the stored credentials would match. -/
theorem authenticateUser_policy_before_lookup_witness :
    validatePasswordPolicy ("abcdef12")
        = some ("Password must have at least one uppercase character") ∧
    (authenticateUser env1 world1 0 ("a@x.com") ("abcdef12")
        = (.err ("Password must have at least one uppercase character"), world1) ∧
      (("Password must have at least one uppercase character" : String)
          == ("Incorrect password")) = false ∧
      (("Password must have at least one uppercase character" : String)
          == ("Email was not found")) = false) :=
  ⟨by decide,
    authenticateUser_policy_before_lookup env1 world1 0 ("a@x.com") ("abcdef12")
      ("Password must have at least one uppercase character") (by decide)⟩

/-- After overwriting every verification row of a user with a new code
and expiry, the user still has a latest row, and it carries exactly that
code and expiry. -/
theorem latestVerification_after_update (vs : List Verification) (userId : String)
    (c e : Nat) (v : Verification) (hv : latestVerification vs userId = some v) :
    ∃ v', latestVerification
        (vs.map (fun x =>
          if x.userId == userId then { x with code := c, expiresAt := e } else x))
        userId = some v' ∧ v'.code = c ∧ v'.expiresAt = e := by
  have hne : vs.filter (fun x => x.userId == userId) ≠ [] := by
    intro hnil
    unfold latestVerification at hv
    rw [hnil] at hv
    simp [maxByExpiry] at hv
  have hne2 : (vs.filter (fun x => x.userId == userId)).map
      (fun x => { x with code := c, expiresAt := e }) ≠ [] := by
    intro hnil
    exact hne (List.map_eq_nil_iff.mp hnil)
  obtain ⟨v', hv'⟩ := Option.isSome_iff_exists.mp (maxByExpiry_isSome _ hne2)
  rcases List.mem_map.mp (maxByExpiry_mem _ _ hv') with ⟨x, _, hxx⟩
  refine ⟨v', ?_, ?_, ?_⟩
  · unfold latestVerification
    rw [filter_update_verifications]
    exact hv'
  · rw [← hxx]
  · rw [← hxx]

/-- C4: for every unverified user with an outstanding verification code,
resend fails with the throttle error exactly when `now` plus 5 minutes
is strictly earlier than the stored code's expiry; otherwise the stored
row is overwritten with a freshly drawn 5-digit code whose expiry is
exactly 1 hour from `now`. -/
theorem resendUserEmailVerification_spec (env : Env) (w : World) (now : Nat)
    (userId : String) (u : User) (v : Verification)
    (hu : (selectUsersById w.db userId).head? = some u)
    (hunv : u.emailVerified = none)
    (hv : latestVerification w.db.verifications userId = some v)
    (hr0 : 0 ≤ env.randFloat) (hr1 : env.randFloat < 1) :
    ((resendUserEmailVerification env w now userId).1 = .err throttleMessage ↔
      now + 5 * 60 * 1000 < v.expiresAt) ∧
    (¬ now + 5 * 60 * 1000 < v.expiresAt →
      ∃ v', latestVerification
          (resendUserEmailVerification env w now userId).2.db.verifications userId
            = some v' ∧
        v'.code = freshCode env.randFloat ∧
        10000 ≤ v'.code ∧ v'.code ≤ 99999 ∧
        v'.expiresAt = now + 60 * 60 * 1000) := by
  have hbounds := freshCode_bounds env.randFloat hr0 hr1
  have hupd := latestVerification_after_update w.db.verifications userId
      (freshCode env.randFloat) (now + 60 * 60 * 1000) v hv
  by_cases hth : now + 5 * 60 * 1000 < v.expiresAt
  · simp only [resendUserEmailVerification, hu, hunv, hv]
    refine ⟨by simp [hth], fun hc => absurd hth hc⟩
  · cases hse : env.sendEmailError with
    | some msg =>
      simp only [resendUserEmailVerification, hu, hunv, hv, hse]
      refine ⟨by simp [hth, throttleMessage], fun _ => ?_⟩
      obtain ⟨v', hlat, hcode, hexp⟩ := hupd
      refine ⟨v', ?_, hcode, ?_, ?_, hexp⟩
      · rw [if_neg (by simp [hth] :
          ¬ decide (v.expiresAt > now + 5 * 60 * 1000) = true)]
        exact hlat
      · rw [hcode]; exact hbounds.1
      · rw [hcode]; exact hbounds.2
    | none =>
      simp only [resendUserEmailVerification, hu, hunv, hv, hse]
      refine ⟨by simp [hth, throttleMessage], fun _ => ?_⟩
      obtain ⟨v', hlat, hcode, hexp⟩ := hupd
      refine ⟨v', ?_, hcode, ?_, ?_, hexp⟩
      · rw [if_neg (by simp [hth] :
          ¬ decide (v.expiresAt > now + 5 * 60 * 1000) = true)]
        exact hlat
      · rw [hcode]; exact hbounds.1
      · rw [hcode]; exact hbounds.2

/-- C4 witness: at t = 500000 the stored code expiring at 600000 is past
the cooldown, so the concrete resend is not throttled and overwrites the
row with a fresh 5-digit code expiring exactly one hour later. -/
theorem resendUserEmailVerification_spec_witness :
    (selectUsersById world1.db ("u1")).head? = some user1 ∧
    user1.emailVerified = none ∧
    latestVerification world1.db.verifications ("u1") = some verification1 ∧
    (0 ≤ env1.randFloat ∧ env1.randFloat < 1) ∧
    (((resendUserEmailVerification env1 world1 500000 ("u1")).1 = .err throttleMessage ↔
        500000 + 5 * 60 * 1000 < verification1.expiresAt) ∧
      (¬ 500000 + 5 * 60 * 1000 < verification1.expiresAt →
        ∃ v', latestVerification
            (resendUserEmailVerification env1 world1 500000 ("u1")).2.db.verifications ("u1")
              = some v' ∧
          v'.code = freshCode env1.randFloat ∧
          10000 ≤ v'.code ∧ v'.code ≤ 99999 ∧
          v'.expiresAt = 500000 + 60 * 60 * 1000)) :=
  ⟨by decide, rfl, by decide, ⟨by decide, by decide⟩,
    resendUserEmailVerification_spec env1 world1 500000 ("u1") user1 verification1
      (by decide) rfl (by decide) (by decide) (by decide)⟩

/-- Success case of email verification: when the user exists and is
unverified, a non-expired latest code is stored and the submitted code
matches it, verification redirects, marks the user verified at the
current time, and inserts one session row. -/
theorem verifyUserEmail_success_case (env : Env) (w : World) (now : Nat) (userId : String)
    (authCode : List Nat) (u : User) (v : Verification)
    (hsel : (selectUsersById w.db userId).head? = some u)
    (hver : u.emailVerified = none)
    (hlv : latestVerification w.db.verifications userId = some v)
    (hexp : ¬ v.expiresAt < now)
    (hcode : decodeJoined authCode = some v.code) :
    (verifyUserEmail env w now userId authCode).1 = .redirectTo defaultLoginRedirect ∧
    (∃ u', (selectUsersById (verifyUserEmail env w now userId authCode).2.db userId).head?
        = some u' ∧ u'.emailVerified = some now) ∧
    (verifyUserEmail env w now userId authCode).2.db.sessions.length
      = w.db.sessions.length + 1 := by
  have hsel' : (w.db.users.filter (fun x => x.id == userId)).head? = some u := hsel
  have hbeq : (u.id == userId) = true :=
    head?_filter_prop (fun x => x.id == userId) w.db.users u hsel'
  have hid : u.id = userId := eq_of_beq hbeq
  have hupd : ((w.db.users.map (fun x =>
      if x.id == userId then { x with emailVerified := some now } else x)).filter
      (fun x => x.id == userId)).head? = some { u with emailVerified := some now } := by
    rw [filter_update_users, List.head?_map, hsel']
    rfl
  simp only [verifyUserEmail, hsel, hver, Option.isSome_none, Bool.false_eq_true,
    if_false, hlv]
  rw [if_neg hexp]
  rw [if_neg (by simp [hcode] : ¬ (decodeJoined authCode != some v.code) = true)]
  rw [hid]
  simp only [createSession, selectUsersById]
  rw [hupd]
  refine ⟨rfl, ⟨{ u with emailVerified := some now }, ?_, rfl⟩, ?_⟩
  · exact hupd
  · simp [OpResult.isError]

/-- C3: email verification yields exactly one of the four distinct
failure kinds (user/code not found, already verified, expired, mismatch)
or succeeds; it succeeds if and only if the user exists, is not yet
verified, the most recently issued stored code is not strictly before
the current time, and the submitted code equals the stored code; and on
success the user's `emailVerified` timestamp is set and a session row is
created. -/
theorem verifyUserEmail_spec (env : Env) (w : World) (now : Nat) (userId : String)
    (authCode : List Nat) :
    ((verifyUserEmail env w now userId authCode).1 = .redirectTo defaultLoginRedirect ↔
      (∃ u, (selectUsersById w.db userId).head? = some u ∧ u.emailVerified = none) ∧
      (∃ v, latestVerification w.db.verifications userId = some v ∧
        ¬ v.expiresAt < now ∧ decodeJoined authCode = some v.code)) ∧
    ((verifyUserEmail env w now userId authCode).1 = .redirectTo defaultLoginRedirect ∨
      (verifyUserEmail env w now userId authCode).1 = .err ("User not found") ∨
      (verifyUserEmail env w now userId authCode).1 = .err ("Email already verified") ∨
      (verifyUserEmail env w now userId authCode).1 = .err ("Verification code not found") ∨
      (verifyUserEmail env w now userId authCode).1 = .err ("Verification code has expired") ∨
      (verifyUserEmail env w now userId authCode).1 = .err ("Incorrect verification code")) ∧
    ((verifyUserEmail env w now userId authCode).1 = .redirectTo defaultLoginRedirect →
      (∃ u', (selectUsersById (verifyUserEmail env w now userId authCode).2.db userId).head?
          = some u' ∧ u'.emailVerified = some now) ∧
      (verifyUserEmail env w now userId authCode).2.db.sessions.length
        = w.db.sessions.length + 1) := by
  cases hsel : (selectUsersById w.db userId).head? with
  | none =>
    have hred : verifyUserEmail env w now userId authCode = (.err ("User not found"), w) := by
      simp only [verifyUserEmail, hsel]
    rw [hred]
    refine ⟨⟨fun h => by simp at h, ?_⟩, Or.inr (Or.inl rfl), fun h => by simp at h⟩
    rintro ⟨⟨u', hu', -⟩, -⟩
    simp at hu'
  | some u =>
    cases hver : u.emailVerified with
    | some t =>
      have hred : verifyUserEmail env w now userId authCode
          = (.err ("Email already verified"), w) := by
        simp only [verifyUserEmail, hsel, hver, Option.isSome_some, if_true]
      rw [hred]
      refine ⟨⟨fun h => by simp at h, ?_⟩, Or.inr (Or.inr (Or.inl rfl)),
        fun h => by simp at h⟩
      rintro ⟨⟨u', hu', hver'⟩, -⟩
      simp only [Option.some.injEq] at hu'
      rw [← hu'] at hver'
      rw [hver] at hver'
      simp at hver'
    | none =>
      cases hlv : latestVerification w.db.verifications userId with
      | none =>
        have hred : verifyUserEmail env w now userId authCode
            = (.err ("Verification code not found"), w) := by
          simp only [verifyUserEmail, hsel, hver, Option.isSome_none, Bool.false_eq_true,
            if_false, hlv]
        rw [hred]
        refine ⟨⟨fun h => by simp at h, ?_⟩, Or.inr (Or.inr (Or.inr (Or.inl rfl))),
          fun h => by simp at h⟩
        rintro ⟨-, v', hv', -⟩
        simp at hv'
      | some v =>
        by_cases hexp : v.expiresAt < now
        · have hred : verifyUserEmail env w now userId authCode
              = (.err ("Verification code has expired"), w) := by
            simp only [verifyUserEmail, hsel, hver, Option.isSome_none, Bool.false_eq_true,
              if_false, hlv]
            rw [if_pos hexp]
          rw [hred]
          refine ⟨⟨fun h => by simp at h, ?_⟩,
            Or.inr (Or.inr (Or.inr (Or.inr (Or.inl rfl)))), fun h => by simp at h⟩
          rintro ⟨-, v', hv', hexp', -⟩
          simp only [Option.some.injEq] at hv'
          rw [← hv'] at hexp'
          exact absurd hexp hexp'
        · by_cases hcode : decodeJoined authCode = some v.code
          · obtain ⟨h1, h2, h3⟩ :=
              verifyUserEmail_success_case env w now userId authCode u v hsel hver hlv
                hexp hcode
            exact ⟨⟨fun _ => ⟨⟨u, rfl, hver⟩, ⟨v, rfl, hexp, hcode⟩⟩, fun _ => h1⟩,
              Or.inl h1, fun _ => ⟨h2, h3⟩⟩
          · have hred : verifyUserEmail env w now userId authCode
                = (.err ("Incorrect verification code"), w) := by
              simp only [verifyUserEmail, hsel, hver, Option.isSome_none, Bool.false_eq_true,
                if_false, hlv]
              rw [if_neg hexp]
              rw [if_pos (by simp [hcode] :
                (decodeJoined authCode != some v.code) = true)]
            rw [hred]
            refine ⟨⟨fun h => by simp at h, ?_⟩,
              Or.inr (Or.inr (Or.inr (Or.inr (Or.inr rfl)))), fun h => by simp at h⟩
            rintro ⟨-, v', hv', -, hcode'⟩
            simp only [Option.some.injEq] at hv'
            rw [← hv'] at hcode'
            exact absurd hcode' hcode


/-- C3 witness: at the concrete world the correct, unexpired code for
the unverified `user1` verifies successfully. -/
theorem verifyUserEmail_spec_witness :
    (verifyUserEmail env1 world1 500 ("u1") [1, 2, 3, 4, 5]).1
      = .redirectTo defaultLoginRedirect :=
  (verifyUserEmail_spec env1 world1 500 ("u1") [1, 2, 3, 4, 5]).1.mpr
    ⟨⟨user1, by decide, rfl⟩, ⟨verification1, by decide, by decide, by decide⟩⟩
